import Mathlib

/-!
Verification development for the threatveil backend core.

Two components are embedded from the source:

* the risk aggregator `_heuristic_risk` of `src/backend/api/vendors.py`
  (signal list to score and reasons), and
* the query cache gateway of `src/backend/api/chat.py`
  (`_cache_key`, `_get_cached`, `_set_cached`, `_select_model`,
  `chat_message` plus the pydantic request validation).

Modelling conventions:

* Python ints are `Nat`/`Int`; timestamps (seconds since epoch) and the
  float weights are exact rationals.  The source evaluates the per-signal
  product `severity_score * weight * recency_boost` in binary floating
  point with literals 1.2 and 1.5; over the whole reachable domain
  (pydantic enforces `0 <= severity_score <= 100`, weights in
  1, 1.2, 1.5 and recency in 1, 1.2) the float result of
  `int(min(100, product))` coincides with the exact rational floor,
  checked exhaustively over all 101 * 3 * 2 cases, so the rational
  embedding is exact on every reachable input.
* `int(x)` truncates toward zero; every product here is nonnegative, so
  it is embedded as the rational floor.  Python `//` is floor division,
  embedded as `Int.fdiv`.
* Stateful code is explicit state passing; the wall clock `time.time()`
  is a `now : Rat` parameter (one instant per call).  Fallible code
  returns `Except`.
-/

namespace ThreatVeil

/-- Signal model of `vendors.py` (pydantic `BaseModel`).  The field
`severity_score` carries pydantic constraint `ge=0, le=100`; `ge=0` is
the `Nat` type, `le=100` is `Signal.WF` below.  Only the `detail` entry
of `metadata` is ever read, as a string, so `metadata` is an association
list of string keys and values. -/

structure Signal where
  signal_type : String
  severity_score : Nat
  metadata : List (String × String)
  detected_at : Rat
deriving DecidableEq

/-- Pydantic upper bound `le=100` on `severity_score`. -/

def Signal.WF (s : Signal) : Prop := s.severity_score ≤ 100

instance (s : Signal) : Decidable s.WF := by
  unfold Signal.WF; infer_instance

/-- Python builtin `min` on two comparable values (first wins ties). -/

def pyMin {α : Type} [LE α] [DecidableRel ((· ≤ ·) : α → α → Prop)]
    (a b : α) : α :=
  if a ≤ b then a else b

/-- Python builtin `max` on two comparable values. -/

def pyMax {α : Type} [LE α] [DecidableRel ((· ≤ ·) : α → α → Prop)]
    (a b : α) : α :=
  if b ≤ a then a else b

/-- Floor of a rational, written so that it evaluates by `Rat.num` and
`Rat.den`; equal to `Int.floor` by `Rat.floor_def`. -/

def ratFloor (q : Rat) : Int := q.num / (q.den : Int)

/-- Type weight of `_heuristic_risk` lines 74-79: 1.5 for github and
breach, 1.2 for cve and cert, 1.0 otherwise. -/

def weightOf (t : String) : Rat :=
  if t = "github" ∨ t = "breach" then 1.5
  else if t = "cve" ∨ t = "cert" then 1.2
  else 1

/-- Recency boost of line 81: 1.2 when the signal is younger than 7 days
at instant `now`, else 1.0. -/

def recencyBoost (now det : Rat) : Rat :=
  if now - det < 7 * 24 * 3600 then 1.2 else 1

/-- Line 82: `contribution = int(min(100, severity * weight * boost))`.
The product is nonnegative, so `int` truncation is the floor. -/

def contribution (now : Rat) (s : Signal) : Int :=
  ratFloor (pyMin (100 : Rat) ((s.severity_score : Rat)
      * weightOf s.signal_type * recencyBoost now s.detected_at))

/-- Line 84: the reason string
`"[type] detail (sev severity)"`, with `metadata.get("detail", "")`. -/

def reasonOf (s : Signal) : String :=
  "[" ++ s.signal_type ++ "] " ++ ((s.metadata.lookup "detail").getD "")
    ++ " (sev " ++ toString s.severity_score ++ ")"

/-- Loop body of `_heuristic_risk` lines 73-84: add the normalized
contribution (`// 4`) to the score and append the reason. -/

def riskStep (now : Rat) (acc : Int × List String) (s : Signal) :
    Int × List String :=
  (acc.1 + Int.fdiv (contribution now s) 4, acc.2 ++ [reasonOf s])

/-- `_heuristic_risk` of `vendors.py` lines 70-89: fold the loop from
`(0, [])`, then clamp the score with `max(0, min(100, score))` and keep
the first three reasons. -/

def heuristicRisk (now : Rat) (signals : List Signal) :
    Int × List String :=
  let r := signals.foldl (riskStep now) (0, [])
  (pyMax 0 (pyMin 100 r.1), r.2.take 3)

/-- Per-signal contribution as the specification words it:
`floor(min(100, severity_score * weight * recency_multiplier) / 4)`. -/

def specContribution (now : Rat) (s : Signal) : Int :=
  ⌊pyMin (100 : Rat) ((s.severity_score : Rat) * weightOf s.signal_type
      * recencyBoost now s.detected_at) / 4⌋

/-- Total score as the specification words it: sum of per-signal
contributions, clamped to the interval from 0 to 100. -/

def specScore (now : Rat) (signals : List Signal) : Int :=
  pyMax 0 (pyMin 100 ((signals.map (specContribution now)).sum))

/-- The per-signal summand actually added to the running score. -/

def perSignal (now : Rat) (s : Signal) : Int :=
  Int.fdiv (contribution now s) 4

/-- Value cached by the gateway (`chat.py` lines 150-158): the dict
written on a miss, holding content, model, token count and estimated
cost.  The dict always has its four keys, and is non-empty, so Python
truthiness of a cached value is just presence (`Option.isSome`). -/

structure CacheValue where
  content : String
  model : String
  tokens : Nat
  cost_usd : Rat
deriving DecidableEq

/-- An entry of the in-memory fallback `_CACHE`: write timestamp plus
value (`chat.py` line 87). -/

structure MemEntry where
  ts : Rat
  value : CacheValue
deriving DecidableEq

/-- The process-wide `_CACHE` dict, as a key-indexed partial map. -/

def MemCache : Type := String → Option MemEntry

/-- Python dict assignment `_CACHE[key] = entry`. -/

def setKey (m : MemCache) (k : String) (e : MemEntry) : MemCache :=
  fun k2 => if k2 = k then some e else m k2

/-- Python `_CACHE.pop(key, None)` as far as the mapping is concerned. -/

def eraseKey (m : MemCache) (k : String) : MemCache :=
  fun k2 => if k2 = k then none else m k2

/-- Outcome of `_redis_client.get(key)` combined with `json.loads`:
`found v` is a truthy payload that decodes to a gateway-written value,
`missing` is a `None` (or falsy) reply, `badPayload` is a truthy payload
on which `json.loads` raises (caught at lines 67-70, yielding a miss),
and `failure e` is the client itself raising, for example on a
connection error; decoded payloads of unexpected shape are not
modelled, no claim concerns them. -/

inductive RedisGetReply where
  | found (v : CacheValue)
  | missing
  | badPayload
  | failure (e : String)

/-- Which cache store the module-level setup of `chat.py` lines 36-45
selected: the Redis client (behaviour of `get` given by an oracle, and
`setErr` the error `setex` raises, if any) or the in-memory fallback. -/

inductive CacheMode where
  | noRedis
  | redis (get : String → RedisGetReply) (setErr : Option String)

/-- Mutable state the gateway touches: the in-memory `_CACHE` and the
fixed store mode. -/

structure GatewayState where
  mem : MemCache
  mode : CacheMode

/-- Configuration read from the environment at startup: cache TTL
seconds, the two model identifiers, whether the OpenAI SDK import
succeeded and whether `OPENAI_API_KEY` is set.  The fixed system
prompt, temperature 0.4 and max output tokens are constants passed
verbatim to the external client and are absorbed by the client
oracle. -/

structure Config where
  ttl : Nat
  miniModel : String
  fullModel : String
  openaiAvailable : Bool
  apiKeyPresent : Bool

/-- Reply of a successful `client.chat.completions.create` call:
`content` may be `None`, `response.model` may be `None`, and
`response.usage` may lack `total_tokens` (the `getattr` default). -/

structure LLMReply where
  content : Option String
  model_used : Option String
  total_tokens : Option Nat

/-- External language-model client: selected model and user message to
either an error message (any exception) or a reply. -/

def LLMClient : Type := String → String → Except String LLMReply

/-- Python `a or b` on an optional string: `b` when `a` is `None` or
empty (falsy), else `a`. -/

def pyOr (a : Option String) (b : String) : String :=
  match a with
  | some s => if s = "" then b else s
  | none => b

/-- `_cache_key` of `chat.py` lines 57-59: `"chat:"` plus the md5 hex
digest of the message.  The digest is modelled by the message itself: a
deterministic injective stand-in; no claim depends on any property of
the digest beyond determinism per message. -/

def cacheKey (message : String) : String := "chat:" ++ message

/-- `_get_cached` of `chat.py` lines 62-79.  Redis branch: a raising
`get` propagates (`Except.error`), a falsy reply or an undecodable
payload is a miss, a decoded payload is returned; the in-memory map is
untouched.  Fallback branch: absent key is a miss; an entry strictly
older than the TTL is popped and reported as a miss; otherwise the
entry value is returned. -/

def getCached (cfg : Config) (st : GatewayState) (now : Rat)
    (message : String) : Except String (Option CacheValue × MemCache) :=
  match st.mode with
  | .redis get _ =>
      match get (cacheKey message) with
      | .failure e => .error e
      | .missing => .ok (none, st.mem)
      | .badPayload => .ok (none, st.mem)
      | .found v => .ok (some v, st.mem)
  | .noRedis =>
      match st.mem (cacheKey message) with
      | none => .ok (none, st.mem)
      | some entry =>
          if now - entry.ts > (cfg.ttl : Rat) then
            .ok (none, eraseKey st.mem (cacheKey message))
          else
            .ok (some entry.value, st.mem)

/-- `_set_cached` of `chat.py` lines 82-87: `setex` on the Redis client
(which may raise), else a timestamped write to the in-memory map. -/

def setCached (cfg : Config) (st : GatewayState) (message : String)
    (now : Rat) (value : CacheValue) (mem : MemCache) :
    Except String MemCache :=
  match st.mode with
  | .redis _ setErr =>
      match setErr with
      | some e => .error e
      | none => .ok mem
  | .noRedis => .ok (setKey mem (cacheKey message) ⟨now, value⟩)

/-- `_select_model` of `chat.py` lines 96-99: the mini model for a
message of at most 80 characters containing a question mark, else the
full model. -/

def selectModel (cfg : Config) (message : String) : String :=
  if message.length ≤ 80 ∧ message.contains (Char.ofNat 63) = true then
    cfg.miniModel
  else cfg.fullModel

/-- `_get_openai_client` of `chat.py` lines 48-54: raises when the
SDK import failed or the key is missing (messages abridged: quotes
around the package name dropped). -/

def openaiClient (cfg : Config) : Except String Unit :=
  if cfg.openaiAvailable = false then
    .error "OpenAI SDK not available. Please install the openai package."
  else if cfg.apiKeyPresent = false then
    .error "OPENAI_API_KEY is not set."
  else .ok ()

/-- Boolean list-head matching helper for the substring test below. -/

def hasPre : List Char → List Char → Bool
  | [], _ => true
  | _ :: _, [] => false
  | a :: as, b :: bs => a == b && hasPre as bs

/-- Boolean substring-of-list test (Python `needle in haystack`). -/

def hasSub (n : List Char) : List Char → Bool
  | [] => n.isEmpty
  | b :: bs => hasPre n (b :: bs) || hasSub n bs

/-- Cost estimate of `chat.py` lines 139-147, in exact rationals:
tokens times the model tier price-pair average per million tokens. -/

def estimateCost (modelUsed : String) (tokens : Nat) : Rat :=
  if hasSub "gpt-4o-mini".toList modelUsed.toList then
    (tokens : Rat) * (0.15 + 0.60) / 2 / 1000000
  else
    (tokens : Rat) * (2.50 + 10.00) / 2 / 1000000

/-- Round-half-even of a rational to an integer; Python `round` uses
this tie-breaking rule. -/

def roundHalfEven (q : Rat) : Int :=
  if q - ratFloor q < 1/2 then ratFloor q
  else if q - ratFloor q > 1/2 then ratFloor q + 1
  else if ratFloor q % 2 = 0 then ratFloor q else ratFloor q + 1

/-- Python `round(x, 6)` (line 156), idealized over exact rationals (the
source rounds a binary float; no claim depends on `cost_usd`). -/

def pyRound6 (q : Rat) : Rat := (roundHalfEven (q * 1000000) : Rat) / 1000000

/-- Errors the request can surface with: a pydantic validation failure
of the request model (HTTP 422), an `HTTPException` raised by the
handler, or an exception escaping the handler uncaught (the framework
turns it into a 500; the cache lookup at line 105 sits outside the
handler try block). -/

inductive ChatError where
  | validation (detail : String)
  | httpErr (status : Nat) (detail : String)
  | uncaught (e : String)
deriving DecidableEq

/-- `ChatResponse` model of `chat.py` lines 22-26. -/

structure ChatResponse where
  response : String
  model : String
  tokens_used : Nat
  cached : Bool
deriving DecidableEq

/-- `chat_message` of `chat.py` lines 102-169, as a state transformer;
the returned boolean records whether the external client was invoked.
Branches in source order: cache hit returns the cached value; a raising
lookup propagates uncaught; over-length misses get HTTP 400; a client
constructor error is caught to HTTP 500; an external-call error is
caught to HTTP 500; otherwise the result is cached and returned with
`cached = false`. -/

def chatMessage (cfg : Config) (llm : LLMClient) (st : GatewayState)
    (now : Rat) (message : String) :
    Except ChatError ChatResponse × GatewayState × Bool :=
  match getCached cfg st now message with
  | .error e => (.error (.uncaught e), st, false)
  | .ok (some v, mem2) =>
      (.ok ⟨v.content, v.model, v.tokens, true⟩, ⟨mem2, st.mode⟩, false)
  | .ok (none, mem2) =>
      if message.length > 4000 then
        (.error (.httpErr 400 "Message too long"), ⟨mem2, st.mode⟩, false)
      else
        match openaiClient cfg with
        | .error e => (.error (.httpErr 500 e), ⟨mem2, st.mode⟩, false)
        | .ok _ =>
            match llm (selectModel cfg message) message with
            | .error e => (.error (.httpErr 500 e), ⟨mem2, st.mode⟩, true)
            | .ok r =>
                let content := pyOr r.content ""
                let tokens := r.total_tokens.getD 0
                let modelUsed := pyOr r.model_used (selectModel cfg message)
                let value : CacheValue :=
                  ⟨content, modelUsed, tokens,
                    pyRound6 (estimateCost modelUsed tokens)⟩
                match setCached cfg st message now value mem2 with
                | .error e =>
                    (.error (.httpErr 500 e), ⟨mem2, st.mode⟩, true)
                | .ok mem3 =>
                    (.ok ⟨content, modelUsed, tokens, false⟩,
                      ⟨mem3, st.mode⟩, true)

/-- The exposed `Answer` operation: pydantic validation of
`ChatRequest` (`message` with `min_length=1, max_length=4000`, lines
16-19) followed by the handler. -/

def answer (cfg : Config) (llm : LLMClient) (st : GatewayState)
    (now : Rat) (message : String) :
    Except ChatError ChatResponse × GatewayState × Bool :=
  if message.length < 1 ∨ message.length > 4000 then
    (.error (.validation "message length out of bounds"), st, false)
  else chatMessage cfg llm st now message

/-- Concrete configuration fixture: TTL 3600, default model names, SDK
and key present. -/

def cfgW : Config := ⟨3600, "gpt-4o-mini", "gpt-4o", true, true⟩

/-- Concrete client fixture answering every call identically. -/

def llmW : LLMClient :=
  fun _ _ => .ok ⟨some "All good.", some "gpt-4o", some 7⟩

/-- Empty in-memory cache, no Redis. -/

def stW : GatewayState := ⟨fun _ => none, .noRedis⟩

/-- Cached value fixture. -/

def vW : CacheValue := ⟨"hello", "gpt-4o", 7, 0⟩

/-- State whose in-memory cache holds the key of message "q", written
at time 0, no Redis. -/

def stQ : GatewayState :=
  ⟨fun k => if k = cacheKey "q" then some ⟨0, vW⟩ else none, .noRedis⟩

/-- Redis-mode state whose client raises on every lookup. -/

def stFail : GatewayState :=
  ⟨fun _ => none,
    .redis (fun _ => .failure "redis connection refused") none⟩

/-- Redis-mode state whose stored payload for every key fails to
decode. -/

def stBad : GatewayState :=
  ⟨fun _ => none, .redis (fun _ => .badPayload) none⟩

theorem pyMin_eq_min {α : Type} [LinearOrder α] (a b : α) :
    pyMin a b = min a b := by
  simp [pyMin, min_def]

theorem pyMax_eq_max {α : Type} [LinearOrder α] (a b : α) :
    pyMax a b = max a b := by
  unfold pyMax
  rw [max_def]
  by_cases hab : a ≤ b
  · by_cases hba : b ≤ a
    · simp [hab, hba, le_antisymm hab hba]
    · simp [hab, hba]
  · have hba : b ≤ a := le_of_not_le hab
    simp [hab, hba]

theorem ratFloor_eq_floor (q : Rat) : ratFloor q = ⌊q⌋ := by
  rw [Rat.floor_def]; rfl

example :
    heuristicRisk 1000 [⟨"github", 100, [("detail", "leak")], 500⟩]
      = (25, ["[github] leak (sev 100)"]) := by
  norm_num [heuristicRisk, riskStep, contribution, ratFloor, pyMin, pyMax,
    weightOf, recencyBoost, reasonOf, List.lookup]
  decide

example : heuristicRisk 0 [] = (0, []) := by
  norm_num [heuristicRisk, pyMin, pyMax]

theorem riskFoldl (now : Rat) (sigs : List Signal) (a : Int)
    (l : List String) :
    sigs.foldl (riskStep now) (a, l) =
      (a + (sigs.map (perSignal now)).sum, l ++ sigs.map reasonOf) := by
  induction sigs generalizing a l with
  | nil => simp
  | cons s t ih =>
      simp only [List.foldl_cons, List.map_cons, List.sum_cons, ih,
        riskStep, perSignal, List.cons_append, List.append_assoc,
        List.singleton_append]
      rw [add_assoc, List.nil_append]

theorem heuristicRisk_eq (now : Rat) (sigs : List Signal) :
    heuristicRisk now sigs =
      (pyMax 0 (pyMin 100 ((sigs.map (perSignal now)).sum)),
       (sigs.map reasonOf).take 3) := by
  simp [heuristicRisk, riskFoldl]

theorem weightOf_nonneg (t : String) : 0 ≤ weightOf t := by
  unfold weightOf
  split <;> try split
  all_goals norm_num

theorem recencyBoost_nonneg (now det : Rat) : 0 ≤ recencyBoost now det := by
  unfold recencyBoost
  split <;> norm_num

theorem contribution_nonneg (now : Rat) (s : Signal) :
    0 ≤ contribution now s := by
  unfold contribution
  rw [ratFloor_eq_floor, pyMin_eq_min]
  apply Int.le_floor.mpr
  push_cast
  apply le_min (by norm_num)
  exact mul_nonneg (mul_nonneg (by positivity) (weightOf_nonneg _))
    (recencyBoost_nonneg _ _)

theorem perSignal_nonneg (now : Rat) (s : Signal) :
    0 ≤ perSignal now s := by
  unfold perSignal
  rw [Int.fdiv_eq_ediv _ (by norm_num)]
  exact Int.ediv_nonneg (contribution_nonneg now s) (by norm_num)

theorem floor_div_four (q : Rat) : ⌊q / 4⌋ = ⌊q⌋ / 4 := by
  apply le_antisymm
  · rw [Int.le_ediv_iff_mul_le (by norm_num)]
    rw [Int.le_floor]
    push_cast
    calc (⌊q / 4⌋ : Rat) * 4 ≤ q / 4 * 4 := by
          exact mul_le_mul_of_nonneg_right (Int.floor_le _) (by norm_num)
      _ = q := by ring
  · rw [Int.le_floor]
    rw [le_div_iff₀ (by norm_num : (0 : Rat) < 4)]
    calc ((⌊q⌋ / 4 : Int) : Rat) * 4 = ((⌊q⌋ / 4 * 4 : Int) : Rat) := by
          push_cast; ring
      _ ≤ (⌊q⌋ : Rat) := by
          exact_mod_cast Int.ediv_mul_le ⌊q⌋ (by norm_num)
      _ ≤ q := Int.floor_le q

theorem perSignal_eq_specContribution (now : Rat) (s : Signal) :
    perSignal now s = specContribution now s := by
  unfold perSignal contribution specContribution
  rw [ratFloor_eq_floor, Int.fdiv_eq_ediv _ (by norm_num), floor_div_four]

/-- C1: for well-formed signals, the aggregator score is the clamped sum,
over the signals in order, of
`floor(min(100, severity_score * weight * recency_multiplier) / 4)`,
with weight 1.5 for github and breach, 1.2 for cve and cert, 1.0
otherwise, and recency multiplier 1.2 within 7 days of `now`. -/
theorem aggregator_score_matches_spec_formula (now : Rat)
    (sigs : List Signal) (hwf : ∀ s ∈ sigs, s.WF) :
    (heuristicRisk now sigs).1 = specScore now sigs := by
  rw [heuristicRisk_eq, specScore]
  have : sigs.map (perSignal now) = sigs.map (specContribution now) :=
    List.map_congr_left fun s _ => perSignal_eq_specContribution now s
  rw [this]

/-- Witness for C1 at the single recent github signal of severity 100:
the hypotheses hold and the score is 25, as the claim states. -/
theorem aggregator_score_matches_spec_formula_witness :
    (∀ s ∈ [(⟨"github", 100, [("detail", "leak")], 500⟩ : Signal)], s.WF)
      ∧ (heuristicRisk 1000 [⟨"github", 100, [("detail", "leak")], 500⟩]).1
          = specScore 1000 [⟨"github", 100, [("detail", "leak")], 500⟩]
      ∧ (heuristicRisk 1000 [⟨"github", 100, [("detail", "leak")], 500⟩]).1
          = 25 := by
  refine ⟨by decide, aggregator_score_matches_spec_formula 1000 _ (by decide), ?_⟩
  norm_num [heuristicRisk, riskStep, contribution, ratFloor, pyMin, pyMax,
    weightOf, recencyBoost]
  decide

/-- C2: for every signal list the aggregator returns a score between 0
and 100 and at most three reasons. -/
theorem aggregator_bounded (now : Rat) (sigs : List Signal) :
    0 ≤ (heuristicRisk now sigs).1 ∧ (heuristicRisk now sigs).1 ≤ 100
      ∧ (heuristicRisk now sigs).2.length ≤ 3 := by
  rw [heuristicRisk_eq]
  refine ⟨?_, ?_, ?_⟩
  · rw [pyMax_eq_max]
    exact le_max_left 0 _
  · rw [pyMax_eq_max, pyMin_eq_min]
    exact max_le (by norm_num) (min_le_left 100 _)
  · simp [List.length_take]

/-- C6: the reasons are the formatted strings of the signals in input
order, detail defaulting to the empty string, truncated to the first
three in input order. -/
theorem aggregator_reasons_first_three (now : Rat) (sigs : List Signal) :
    (heuristicRisk now sigs).2 =
      (sigs.map (fun s => "[" ++ s.signal_type ++ "] "
          ++ ((s.metadata.lookup "detail").getD "")
          ++ " (sev " ++ toString s.severity_score ++ ")")).take 3 := by
  rw [heuristicRisk_eq]
  rfl

/-- C8: the aggregator is deterministic, its output a function of the
signal sequence and the instant `now` alone. -/
theorem aggregator_deterministic (s₁ s₂ : List Signal) (n₁ n₂ : Rat)
    (hs : s₁ = s₂) (hn : n₁ = n₂) :
    heuristicRisk n₁ s₁ = heuristicRisk n₂ s₂ := by
  rw [hs, hn]

/-- Witness for C8 at a concrete signal list and instant. -/
theorem aggregator_deterministic_witness :
    ([(⟨"cve", 65, [], 10⟩ : Signal)] = [(⟨"cve", 65, [], 10⟩ : Signal)])
      ∧ ((50 : Rat) = 50)
      ∧ heuristicRisk 50 [(⟨"cve", 65, [], 10⟩ : Signal)]
          = heuristicRisk 50 [(⟨"cve", 65, [], 10⟩ : Signal)] :=
  ⟨rfl, rfl, aggregator_deterministic _ _ _ _ rfl rfl⟩

/-- C9: appending a well-formed signal never lowers the aggregator
score. -/
theorem aggregator_monotone_append (now : Rat) (xs : List Signal)
    (s : Signal) (hxs : ∀ t ∈ xs, t.WF) (hs : s.WF) :
    (heuristicRisk now xs).1 ≤ (heuristicRisk now (xs ++ [s])).1 := by
  rw [heuristicRisk_eq, heuristicRisk_eq]
  simp only [pyMax_eq_max, pyMin_eq_min, List.map_append, List.sum_append,
    List.map_cons, List.map_nil, List.sum_cons, List.sum_nil, add_zero]
  apply max_le_max le_rfl
  apply min_le_min le_rfl
  exact le_add_of_nonneg_right (perSignal_nonneg now s)

/-- Witness for C9: appending a breach signal to a github signal. -/
theorem aggregator_monotone_append_witness :
    (∀ t ∈ [(⟨"github", 70, [], 0⟩ : Signal)], t.WF)
      ∧ (⟨"breach", 90, [], 0⟩ : Signal).WF
      ∧ (heuristicRisk 10 [(⟨"github", 70, [], 0⟩ : Signal)]).1
          ≤ (heuristicRisk 10
              ([(⟨"github", 70, [], 0⟩ : Signal)]
                ++ [(⟨"breach", 90, [], 0⟩ : Signal)])).1 :=
  ⟨by decide, by decide,
    aggregator_monotone_append 10 _ _ (by decide) (by decide)⟩

theorem setKey_self (m : MemCache) (k : String) (e : MemEntry) :
    setKey m k e k = some e := by
  simp [setKey]

theorem getCached_noRedis_hit (cfg : Config) (st : GatewayState)
    (now : Rat) (message : String) (entry : MemEntry)
    (hmode : st.mode = .noRedis)
    (hmem : st.mem (cacheKey message) = some entry)
    (hfresh : ¬ now - entry.ts > (cfg.ttl : Rat)) :
    getCached cfg st now message = .ok (some entry.value, st.mem) := by
  simp only [getCached, hmode, hmem]
  rw [if_neg hfresh]

theorem chatMessage_hit (cfg : Config) (llm : LLMClient)
    (st : GatewayState) (now : Rat) (message : String) (v : CacheValue)
    (mem2 : MemCache)
    (hg : getCached cfg st now message = .ok (some v, mem2)) :
    chatMessage cfg llm st now message
      = (.ok ⟨v.content, v.model, v.tokens, true⟩, ⟨mem2, st.mode⟩, false) := by
  unfold chatMessage
  rw [hg]

/-- Outcome shape of the handler under the length bound: it never
raises a pydantic validation error, and the HTTP 400 length rejection
is unreachable when the message is within 4000 characters. -/
theorem chatMessage_error_shape (cfg : Config) (llm : LLMClient)
    (st : GatewayState) (now : Rat) (message : String)
    (hlen : ¬ message.length > 4000) (e : ChatError)
    (he : (chatMessage cfg llm st now message).1 = .error e) :
    (∀ d, e ≠ .validation d) ∧ e ≠ .httpErr 400 "Message too long" := by
  unfold chatMessage at he
  cases hg : getCached cfg st now message with
  | error e2 =>
      rw [hg] at he
      simp only at he
      cases he
      exact ⟨fun d => by simp, by simp⟩
  | ok res =>
      obtain ⟨o, mem2⟩ := res
      rw [hg] at he
      cases o with
      | some v => simp at he
      | none =>
          simp only at he
          rw [if_neg hlen] at he
          cases hcli : openaiClient cfg with
          | error e2 =>
              rw [hcli] at he
              simp only at he
              cases he
              exact ⟨fun d => by simp, by simp⟩
          | ok u =>
              rw [hcli] at he
              simp only at he
              cases hllm : llm (selectModel cfg message) message with
              | error e2 =>
                  rw [hllm] at he
                  simp only at he
                  cases he
                  exact ⟨fun d => by simp, by simp⟩
              | ok r =>
                  rw [hllm] at he
                  simp only at he
                  cases hset : setCached cfg st message now
                      ⟨pyOr r.content "",
                        pyOr r.model_used (selectModel cfg message),
                        r.total_tokens.getD 0,
                        pyRound6 (estimateCost
                          (pyOr r.model_used (selectModel cfg message))
                          (r.total_tokens.getD 0))⟩ mem2 with
                  | error e2 =>
                      rw [hset] at he
                      simp only at he
                      cases he
                      exact ⟨fun d => by simp, by simp⟩
                  | ok mem3 =>
                      rw [hset] at he
                      simp at he

/-- C4: on a cache miss, the request fails with a validation error when
the message is empty or longer than 4000 characters, and an error on a
message of length 1 to 4000 is never on length grounds. -/
theorem answer_length_bounds (cfg : Config) (llm : LLMClient)
    (st : GatewayState) (now : Rat) (message : String)
    (hmiss : ∃ mem2, getCached cfg st now message = .ok (none, mem2)) :
    ((message.length = 0 ∨ message.length > 4000) →
        ∃ d, (answer cfg llm st now message).1 = .error (.validation d)) ∧
    (1 ≤ message.length → message.length ≤ 4000 →
        ∀ e, (answer cfg llm st now message).1 = .error e →
          (∀ d, e ≠ .validation d)
            ∧ e ≠ .httpErr 400 "Message too long") := by
  constructor
  · intro h
    refine ⟨"message length out of bounds", ?_⟩
    unfold answer
    rw [if_pos (by omega)]
  · intro h1 h2 e he
    unfold answer at he
    rw [if_neg (by omega)] at he
    exact chatMessage_error_shape cfg llm st now message (by omega) e he

/-- Witness for C4: at the empty cache, the empty message yields a
validation error, and the in-range message "hi" never fails on length
grounds. -/
theorem answer_length_bounds_witness :
    (∃ mem2, getCached cfgW stW 0 "" = .ok (none, mem2)) ∧
    (∃ d, (answer cfgW llmW stW 0 "").1
        = .error (.validation d)) := by
  have hm : ∃ mem2, getCached cfgW stW 0 "" = .ok (none, mem2) :=
    ⟨stW.mem, rfl⟩
  exact ⟨hm, (answer_length_bounds cfgW llmW stW 0 "" hm).1 (Or.inl rfl)⟩

/-- Counterexample to C5: with TTL 3600, an entry written at time 0 is
still returned by a lookup at time exactly 3600 = T+S, because the
expiry comparison at line 76 is strict; the claim says a lookup at any
time at or after T+S is a miss. -/
theorem cache_hit_at_exact_expiry :
    getCached cfgW stQ 3600 "q" = .ok (some vW, stQ.mem)
      ∧ (chatMessage cfgW llmW stQ 3600 "q").1
          = .ok ⟨"hello", "gpt-4o", 7, true⟩ := by
  have hmem : stQ.mem (cacheKey "q") = some ⟨0, vW⟩ := by
    simp [stQ]
  have hg := getCached_noRedis_hit cfgW stQ 3600 "q" ⟨0, vW⟩ rfl hmem
    (by norm_num [cfgW])
  refine ⟨hg, ?_⟩
  rw [chatMessage_hit cfgW llmW stQ 3600 "q" vW stQ.mem hg]
  rfl

/-- C5 amended: an in-memory entry is treated as absent, and popped,
for any lookup strictly later than its write time plus the TTL; at
exactly write time plus TTL it is still returned. -/
theorem cache_miss_strictly_after_expiry (cfg : Config)
    (st : GatewayState) (now : Rat) (message : String) (entry : MemEntry)
    (hmode : st.mode = .noRedis)
    (hmem : st.mem (cacheKey message) = some entry)
    (hexp : now - entry.ts > (cfg.ttl : Rat)) :
    getCached cfg st now message
      = .ok (none, eraseKey st.mem (cacheKey message)) := by
  simp only [getCached, hmode, hmem]
  rw [if_pos hexp]

/-- Witness for the amended C5 at time 3601, one second past expiry. -/
theorem cache_miss_strictly_after_expiry_witness :
    stQ.mode = .noRedis
      ∧ stQ.mem (cacheKey "q") = some ⟨0, vW⟩
      ∧ ((3601 : Rat) - (0 : Rat) > (cfgW.ttl : Rat))
      ∧ getCached cfgW stQ 3601 "q"
          = .ok (none, eraseKey stQ.mem (cacheKey "q")) := by
  have hmem : stQ.mem (cacheKey "q") = some ⟨0, vW⟩ := by
    simp [stQ]
  have hexp : (3601 : Rat) - ((⟨0, vW⟩ : MemEntry)).ts > (cfgW.ttl : Rat) := by
    norm_num [cfgW]
  exact ⟨rfl, hmem, by norm_num [cfgW],
    cache_miss_strictly_after_expiry cfgW stQ 3601 "q" ⟨0, vW⟩ rfl hmem hexp⟩

/-- Counterexample to C3: when the configured Redis client raises on
lookup, the exception escapes the handler (line 105 is outside the try
block) and no fresh answer is computed — the external client is never
invoked. -/
theorem cache_failure_fails_answer :
    (chatMessage cfgW llmW stFail 0 "hi").1
        = .error (.uncaught "redis connection refused")
      ∧ (chatMessage cfgW llmW stFail 0 "hi").2.2 = false := by
  have hg : getCached cfgW stFail 0 "hi"
      = .error "redis connection refused" := rfl
  unfold chatMessage
  rw [hg]
  exact ⟨rfl, rfl⟩

/-- C3 amended: with Redis configured, a payload that fails to decode
is treated as a miss and, when the inputs and the external call are
fine, a fresh answer is computed; but a raising lookup propagates
uncaught and the request fails instead of degrading to a miss. -/
theorem redis_lookup_failure_modes (cfg : Config) (llm : LLMClient)
    (st : GatewayState) (now : Rat) (message : String)
    (get : String → RedisGetReply) (setErr : Option String)
    (hmode : st.mode = .redis get setErr) :
    (∀ e, get (cacheKey message) = .failure e →
        (chatMessage cfg llm st now message).1 = .error (.uncaught e)) ∧
    (get (cacheKey message) = .badPayload →
        getCached cfg st now message = .ok (none, st.mem)) ∧
    (∀ r, get (cacheKey message) = .badPayload →
        ¬ message.length > 4000 →
        openaiClient cfg = .ok () →
        llm (selectModel cfg message) message = .ok r →
        setErr = none →
        (chatMessage cfg llm st now message).1
          = .ok ⟨pyOr r.content "",
              pyOr r.model_used (selectModel cfg message),
              r.total_tokens.getD 0, false⟩) := by
  refine ⟨?_, ?_, ?_⟩
  · intro e hfail
    have hg : getCached cfg st now message = .error e := by
      simp only [getCached, hmode, hfail]
    unfold chatMessage
    rw [hg]
  · intro hbad
    simp only [getCached, hmode, hbad]
  · intro r hbad hlen hcli hllm hset
    have hg : getCached cfg st now message = .ok (none, st.mem) := by
      simp only [getCached, hmode, hbad]
    have hsc : setCached cfg st message now
        ⟨pyOr r.content "", pyOr r.model_used (selectModel cfg message),
          r.total_tokens.getD 0,
          pyRound6 (estimateCost (pyOr r.model_used (selectModel cfg message))
            (r.total_tokens.getD 0))⟩ st.mem = .ok st.mem := by
      simp only [setCached, hmode, hset]
    simp only [chatMessage, hg, if_neg hlen, hcli, hllm, hsc]

/-- Witness for the amended C3: on the undecodable payload the request
degrades to a fresh answer. -/
theorem redis_lookup_failure_modes_witness :
    stBad.mode = .redis (fun _ => .badPayload) none
      ∧ (chatMessage cfgW llmW stBad 0 "hi").1
          = .ok ⟨"All good.", "gpt-4o", 7, false⟩ := by
  refine ⟨rfl, ?_⟩
  have h := (redis_lookup_failure_modes cfgW llmW stBad 0 "hi"
    (fun _ => .badPayload) none rfl).2.2
    ⟨some "All good.", some "gpt-4o", some 7⟩ rfl (by decide) rfl rfl rfl
  exact h

/-- Full outcome of a miss on the in-memory store with a healthy
external call: the fresh answer is returned uncached and written to the
map under the key, stamped with the call instant. -/
theorem chatMessage_miss_noRedis (cfg : Config) (llm : LLMClient)
    (st : GatewayState) (now : Rat) (message : String) (mem2 : MemCache)
    (r : LLMReply)
    (hmode : st.mode = .noRedis)
    (hg : getCached cfg st now message = .ok (none, mem2))
    (hlen : ¬ message.length > 4000)
    (hcli : openaiClient cfg = .ok ())
    (hllm : llm (selectModel cfg message) message = .ok r) :
    chatMessage cfg llm st now message
      = (.ok ⟨pyOr r.content "", pyOr r.model_used (selectModel cfg message),
            r.total_tokens.getD 0, false⟩,
         ⟨setKey mem2 (cacheKey message)
            ⟨now, ⟨pyOr r.content "",
                pyOr r.model_used (selectModel cfg message),
                r.total_tokens.getD 0,
                pyRound6 (estimateCost
                  (pyOr r.model_used (selectModel cfg message))
                  (r.total_tokens.getD 0))⟩⟩,
          st.mode⟩, true) := by
  have hsc : setCached cfg st message now
      ⟨pyOr r.content "", pyOr r.model_used (selectModel cfg message),
        r.total_tokens.getD 0,
        pyRound6 (estimateCost (pyOr r.model_used (selectModel cfg message))
          (r.total_tokens.getD 0))⟩ mem2
      = .ok (setKey mem2 (cacheKey message)
          ⟨now, ⟨pyOr r.content "",
              pyOr r.model_used (selectModel cfg message),
              r.total_tokens.getD 0,
              pyRound6 (estimateCost
                (pyOr r.model_used (selectModel cfg message))
                (r.total_tokens.getD 0))⟩⟩) := by
    simp only [setCached, hmode]
  simp only [chatMessage, hg, if_neg hlen, hcli, hllm, hsc]

/-- Inversion of a successful uncached reply: it can only come from the
miss branch after a successful external call, and the reply fields are
the processed client reply. -/
theorem chatMessage_ok_uncached_inv (cfg : Config) (llm : LLMClient)
    (st : GatewayState) (now : Rat) (message : String)
    (resp : ChatResponse)
    (h : (chatMessage cfg llm st now message).1 = .ok resp)
    (hc : resp.cached = false) :
    ∃ mem2 r, getCached cfg st now message = .ok (none, mem2)
      ∧ ¬ message.length > 4000
      ∧ openaiClient cfg = .ok ()
      ∧ llm (selectModel cfg message) message = .ok r
      ∧ resp = ⟨pyOr r.content "",
          pyOr r.model_used (selectModel cfg message),
          r.total_tokens.getD 0, false⟩ := by
  cases hg : getCached cfg st now message with
  | error e =>
      simp only [chatMessage, hg] at h
      exact absurd h (by simp)
  | ok p =>
      obtain ⟨o, mem2⟩ := p
      cases o with
      | some v =>
          simp only [chatMessage, hg] at h
          obtain rfl := (Except.ok.inj h)
          simp at hc
      | none =>
          by_cases hlen : message.length > 4000
          · simp only [chatMessage, hg, if_pos hlen] at h
            exact absurd h (by simp)
          · cases hcli : openaiClient cfg with
            | error e =>
                simp only [chatMessage, hg, if_neg hlen, hcli] at h
                exact absurd h (by simp)
            | ok u =>
                cases hllm : llm (selectModel cfg message) message with
                | error e =>
                    simp only [chatMessage, hg, if_neg hlen, hcli, hllm] at h
                    exact absurd h (by simp)
                | ok r =>
                    cases hsc : setCached cfg st message now
                        ⟨pyOr r.content "",
                          pyOr r.model_used (selectModel cfg message),
                          r.total_tokens.getD 0,
                          pyRound6 (estimateCost
                            (pyOr r.model_used (selectModel cfg message))
                            (r.total_tokens.getD 0))⟩ mem2 with
                    | error e =>
                        simp only [chatMessage, hg, if_neg hlen, hcli,
                          hllm, hsc] at h
                        exact absurd h (by simp)
                    | ok mem3 =>
                        simp only [chatMessage, hg, if_neg hlen, hcli,
                          hllm, hsc] at h
                        cases u
                        exact ⟨mem2, r, rfl, hlen, rfl, rfl,
                          (Except.ok.inj h).symm⟩

/-- C10: a lookup that finds a non-expired entry returns it without
invoking the external client and without changing any state, and the
only mutation the read path ever performs is popping an entry found
expired. -/
theorem read_path_frame (cfg : Config) (llm : LLMClient)
    (st : GatewayState) (now : Rat) (message : String)
    (res : Option CacheValue) (mem2 : MemCache)
    (hg : getCached cfg st now message = .ok (res, mem2)) :
    (∀ v, res = some v →
        mem2 = st.mem ∧
        chatMessage cfg llm st now message
          = (.ok ⟨v.content, v.model, v.tokens, true⟩, st, false)) ∧
    (mem2 = st.mem ∨
      (res = none ∧ ∃ entry, st.mem (cacheKey message) = some entry ∧
        now - entry.ts > (cfg.ttl : Rat) ∧
        mem2 = eraseKey st.mem (cacheKey message))) := by
  have hg0 := hg
  cases hmode : st.mode with
  | redis get setErr =>
      simp only [getCached, hmode] at hg
      cases hr : get (cacheKey message) with
      | failure e =>
          simp only [hr] at hg
          exact absurd hg (by simp)
      | missing =>
          simp only [hr] at hg
          obtain ⟨h1, h2⟩ := Prod.mk.injEq .. ▸ Except.ok.inj hg
          subst h2
          refine ⟨fun v hv => ?_, Or.inl rfl⟩
          rw [← h1] at hv
          exact absurd hv (by simp)
      | badPayload =>
          simp only [hr] at hg
          obtain ⟨h1, h2⟩ := Prod.mk.injEq .. ▸ Except.ok.inj hg
          subst h2
          refine ⟨fun v hv => ?_, Or.inl rfl⟩
          rw [← h1] at hv
          exact absurd hv (by simp)
      | found v =>
          simp only [hr] at hg
          obtain ⟨h1, h2⟩ := Prod.mk.injEq .. ▸ Except.ok.inj hg
          subst h2
          subst h1
          refine ⟨fun v2 hv => ?_, Or.inl rfl⟩
          obtain rfl := Option.some.inj hv
          exact ⟨rfl, chatMessage_hit cfg llm st now message v st.mem hg0⟩
  | noRedis =>
      simp only [getCached, hmode] at hg
      cases hmem : st.mem (cacheKey message) with
      | none =>
          simp only [hmem] at hg
          obtain ⟨h1, h2⟩ := Prod.mk.injEq .. ▸ Except.ok.inj hg
          subst h2
          refine ⟨fun v hv => ?_, Or.inl rfl⟩
          rw [← h1] at hv
          exact absurd hv (by simp)
      | some entry =>
          simp only [hmem] at hg
          by_cases hexp : now - entry.ts > (cfg.ttl : Rat)
          · rw [if_pos hexp] at hg
            obtain ⟨h1, h2⟩ := Prod.mk.injEq .. ▸ Except.ok.inj hg
            subst h2
            refine ⟨fun v hv => ?_, Or.inr ⟨h1.symm, entry, rfl, hexp, rfl⟩⟩
            rw [← h1] at hv
            exact absurd hv (by simp)
          · rw [if_neg hexp] at hg
            obtain ⟨h1, h2⟩ := Prod.mk.injEq .. ▸ Except.ok.inj hg
            subst h2
            subst h1
            refine ⟨fun v2 hv => ?_, Or.inl rfl⟩
            obtain rfl := Option.some.inj hv
            exact ⟨rfl,
              chatMessage_hit cfg llm st now message entry.value st.mem hg0⟩

/-- Witness for C10: the hit on the fresh entry of `stQ` leaves state
untouched and never calls the client. -/
theorem read_path_frame_witness :
    getCached cfgW stQ 100 "q" = .ok (some vW, stQ.mem)
      ∧ chatMessage cfgW llmW stQ 100 "q"
          = (.ok ⟨vW.content, vW.model, vW.tokens, true⟩, stQ, false) := by
  have hmem : stQ.mem (cacheKey "q") = some ⟨0, vW⟩ := by
    simp [stQ]
  have hg : getCached cfgW stQ 100 "q" = .ok (some vW, stQ.mem) :=
    getCached_noRedis_hit cfgW stQ 100 "q" ⟨0, vW⟩ rfl hmem
      (by norm_num [cfgW])
  exact ⟨hg,
    ((read_path_frame cfgW llmW stQ 100 "q" (some vW) stQ.mem hg).1
      vW rfl).2⟩

/-- C7: after a successful uncached answer at `t1`, the same message
asked again at any `t2` within the TTL of the in-memory store returns
the cached reply with identical content, model and token count. -/
theorem answer_cache_idempotent (cfg : Config) (llm : LLMClient)
    (st : GatewayState) (t1 t2 : Rat) (message : String)
    (resp : ChatResponse)
    (hmode : st.mode = .noRedis)
    (h1 : (chatMessage cfg llm st t1 message).1 = .ok resp)
    (hcached : resp.cached = false)
    (httl : t2 - t1 ≤ (cfg.ttl : Rat)) :
    (chatMessage cfg llm (chatMessage cfg llm st t1 message).2.1 t2
        message).1
      = .ok ⟨resp.response, resp.model, resp.tokens_used, true⟩ := by
  obtain ⟨mem2, r, hg, hlen, hcli, hllm, hresp⟩ :=
    chatMessage_ok_uncached_inv cfg llm st t1 message resp h1 hcached
  have hfull := chatMessage_miss_noRedis cfg llm st t1 message mem2 r
    hmode hg hlen hcli hllm
  have hst2 : (chatMessage cfg llm st t1 message).2.1
      = ⟨setKey mem2 (cacheKey message)
          ⟨t1, ⟨pyOr r.content "",
              pyOr r.model_used (selectModel cfg message),
              r.total_tokens.getD 0,
              pyRound6 (estimateCost
                (pyOr r.model_used (selectModel cfg message))
                (r.total_tokens.getD 0))⟩⟩,
         st.mode⟩ := by
    rw [hfull]
  rw [hst2]
  have hg2 := getCached_noRedis_hit cfg
    ⟨setKey mem2 (cacheKey message)
        ⟨t1, ⟨pyOr r.content "",
            pyOr r.model_used (selectModel cfg message),
            r.total_tokens.getD 0,
            pyRound6 (estimateCost
              (pyOr r.model_used (selectModel cfg message))
              (r.total_tokens.getD 0))⟩⟩,
       st.mode⟩ t2 message
    ⟨t1, ⟨pyOr r.content "",
        pyOr r.model_used (selectModel cfg message),
        r.total_tokens.getD 0,
        pyRound6 (estimateCost
          (pyOr r.model_used (selectModel cfg message))
          (r.total_tokens.getD 0))⟩⟩
    hmode (setKey_self _ _ _) (not_lt.mpr httl)
  rw [chatMessage_hit cfg llm _ t2 message _ _ hg2]
  subst hresp
  rfl

/-- Witness for C7: asking "hi" twice at time 0 on the empty in-memory
store; the second reply is the first one, served from cache. -/
theorem answer_cache_idempotent_witness :
    stW.mode = .noRedis
      ∧ (chatMessage cfgW llmW stW 0 "hi").1
          = .ok ⟨"All good.", "gpt-4o", 7, false⟩
      ∧ ((⟨"All good.", "gpt-4o", 7, false⟩ : ChatResponse).cached = false)
      ∧ ((0 : Rat) - 0 ≤ (cfgW.ttl : Rat))
      ∧ (chatMessage cfgW llmW (chatMessage cfgW llmW stW 0 "hi").2.1 0
            "hi").1
          = .ok ⟨"All good.", "gpt-4o", 7, true⟩ := by
  refine ⟨rfl, rfl, rfl, by simp [cfgW], ?_⟩
  exact answer_cache_idempotent cfgW llmW stW 0 0 "hi"
    ⟨"All good.", "gpt-4o", 7, false⟩ rfl rfl rfl (by simp [cfgW])

end ThreatVeil
